import Mathlib

set_option linter.unusedVariables false

namespace QuickConfig

/-!
Shallow embedding of the quickconfig repository:
`src/quickconfig/base_config.py`, `src/quickconfig/main_base.py` and the
example schemas of `src/example/`.

Modelling choices:
* Python runtime values are `PyVal`; Python floats are modelled as exact
  rationals (`Rat`) — the only float operations the code performs are
  construction from decimal literals/strings and order comparisons, which
  agree with the exact rational semantics on all inputs appearing here.
* String scanning (`in`, `split`, `rsplit`, slicing) is implemented by
  structural functions over `List Char` so that every definition reduces in
  the kernel.
* Every fallible Python operation returns `Except PyErr`; each `PyErr`
  constructor corresponds to one `raise` site (or implicit exception site)
  of the source.
* Console printing (`print` in `__display_help` and friends) is a pure
  side effect that is not modelled; `__display_help` is modelled by its
  effect on the working token list.
* The session-directory allocator (`SessionSaver`) and the JSON (de)serialiser
  are external collaborators per the spec; the filesystem is a finite map
  from path to already-parsed JSON value, and the allocator is a function
  parameter of `build`.
-/

/-- Python values as they occur in this program (JSON values, argument
values, command-line strings).  `dict` keeps insertion order, like a Python
dict. -/
inductive PyVal where
  | str : String → PyVal
  | bool : Bool → PyVal
  | int : Int → PyVal
  | float : Rat → PyVal
  | none : PyVal
  | dict : List (String × PyVal) → PyVal

/-- The declared-type tags used by the example schemas (`str`, `bool`,
`int`, `float` passed as Python classes to `add_argument`). -/
inductive PyType where
  | str | bool | int | float
deriving DecidableEq

/-- One error constructor per raise site / implicit exception of the source. -/
inductive PyErr where
  | reservedAttr        -- BaseConfig.__setattr__: Exception for reserved names
  | frozenCfg           -- BaseConfig.__setattr__: TypeError when frozen
  | lockedCfg           -- BaseConfig.__setattr__: TypeError, new attr while locked
  | mainFrozenErr       -- MainBase.__setattr__: TypeError when _MainBase__frozen
  | declTypeConflict    -- BaseConfig.add_argument: TypeError, default/type mismatch
  | declValidation      -- BaseConfig.add_argument: ValueError, default fails validation
  | unknownSubconfig    -- MainBase.__assure_no_additional_keys: ValueError
  | unknownArgumentFile -- MainBase.__override_individual_subconfig: ValueError
  | unknownArgumentCmd  -- MainBase.__override_with_cmdline_args: ValueError
  | invalidArgName      -- MainBase.__override_with_cmdline_args: Exception, bad non-dotted key
  | typeCoercion        -- MainBase.__validate_arg: TypeError, cannot convert
  | validationFailure   -- MainBase.__validate_arg: ValueError, validation criteria
  | keyError            -- dict subscript of a missing key (arg_dict[name])
  | attributeError      -- getattr / .items() on an object lacking the attribute
  | fileNotFound        -- open() of a missing config file
  | valueErrorUnpack    -- tuple unpacking of a split() with the wrong arity
  | noneTypeSubscript   -- subscripting None (arg_dict entry set to None)
deriving DecidableEq

/-! ## String helpers (structural, kernel-reducible) -/

/-- Python's substring test `pat in s` (for non-empty `pat`). -/
def listSub (pat : List Char) : List Char → Bool
  | [] => pat.isEmpty
  | c :: t => List.isPrefixOf pat (c :: t) || listSub pat t

/-- Python `pat in s`. -/
def strContains (s pat : String) : Bool := listSub pat.toList s.toList

/-- Split at the first occurrence of `pat`; `Option.none` when `pat` does not
occur.  Models Python `s.split(pat, 1)` (which yields 1 or 2 parts). -/
def splitOnceList (pat : List Char) : List Char → Option (List Char × List Char)
  | [] => Option.none
  | c :: t =>
    if List.isPrefixOf pat (c :: t) then some ([], List.drop pat.length (c :: t))
    else match splitOnceList pat t with
         | some (a, b) => some (c :: a, b)
         | Option.none => Option.none

/-- Python `s.split(sep, 1)` returning `(before, after)` iff `sep` occurs. -/
def splitOnce (s sep : String) : Option (String × String) :=
  match splitOnceList sep.toList s.toList with
  | some (a, b) => some (String.mk a, String.mk b)
  | Option.none => Option.none

/-- Fuel-driven full split (fuel ≥ length suffices). -/
def splitFuel (pat : List Char) : Nat → List Char → List Char → List (List Char)
  | 0, l, cur => [cur.reverse ++ l]
  | _ + 1, [], cur => [cur.reverse]
  | n + 1, c :: t, cur =>
    if List.isPrefixOf pat (c :: t) then
      cur.reverse :: splitFuel pat n (List.drop (pat.length - 1) t) []
    else splitFuel pat n t (c :: cur)

/-- Python `s.split(sep)` (full split, `sep` non-empty). -/
def pySplit (s sep : String) : List String :=
  (splitFuel sep.toList (s.toList.length + 1) s.toList []).map String.mk

/-- Everything after the last occurrence of `pat` (the whole string when
`pat` does not occur): Python `s.rsplit(pat, 1)[-1]` and
`s.split(pat)[-1]`. -/
def afterLastFuel (pat : List Char) : Nat → List Char → List Char
  | 0, l => l
  | n + 1, l =>
    match splitOnceList pat l with
    | some (_, b) => afterLastFuel pat n b
    | Option.none => l

/-- Python `s.rsplit(pat, 1)[-1]` (= `s.split(pat)[-1]`). -/
def afterLast (s pat : String) : String :=
  String.mk (afterLastFuel pat.toList s.toList.length s.toList)

/-- Python `s.rsplit("/", 1)[0]`: everything before the last `/`, or the
whole string when there is no `/`. -/
def rsplitDir (s : String) : String :=
  match splitOnceList ['/'] s.toList.reverse with
  | some (_, b) => String.mk b.reverse
  | Option.none => s

/-- Python `s.endswith(pat)`, which is what `".json" in v[-5:]` amounts to
for a 5-character pattern. -/
def strEndsWith (s pat : String) : Bool := List.isSuffixOf pat.toList s.toList

/-- `os.path.join(a, b)`. -/
def osPathJoin (a b : String) : String :=
  if a == "" then b else if strEndsWith a "/" then a ++ b else a ++ "/" ++ b

/-- Remove the first occurrence of `s` (Python `list.remove`, total here
because callers establish membership first). -/
def removeFirst : List String → String → List String
  | [], _ => []
  | a :: as, s => if a == s then as else a :: removeFirst as s

/-- Code-point comparison of characters. -/
def charLt (a b : Char) : Bool := a.toNat < b.toNat

/-- Python's lexicographic `<` on strings, as a boolean. -/
def strListLt : List Char → List Char → Bool
  | [], [] => false
  | [], _ :: _ => true
  | _ :: _, [] => false
  | a :: as, b :: bs => charLt a b || (a == b && strListLt as bs)

def strLt (a b : String) : Bool := strListLt a.toList b.toList

/-- Insertion sort on strings: `dir()` returns attribute names sorted. -/
def insertSorted (s : String) : List String → List String
  | [] => [s]
  | t :: ts => if strLt s t then s :: t :: ts else t :: insertSorted s ts

def sortStrings : List String → List String
  | [] => []
  | s :: ts => insertSorted s (sortStrings ts)

/-! ## Python value semantics -/

/-- Python truthiness, as used by `if self.locked:` etc. and by `bool(x)`. -/
def PyVal.truthy : PyVal → Bool
  | .str s => !(s == "")
  | .bool b => b
  | .int n => !(n == 0)
  | .float q => !(q == 0)
  | .none => false
  | .dict d => !d.isEmpty

def PyVal.isNoneV : PyVal → Bool
  | .none => true
  | _ => false

def PyVal.isStrNone : PyVal → Bool
  | .str s => s == "none"
  | _ => false

/-- The "none" sentinels accepted by `add_argument` (`default is None` or
`default == "none"`). -/
def isSentinel (v : PyVal) : Bool := v.isNoneV || v.isStrNone

/-- Python `isinstance(v, t)` for the four schema types (note that Python
`bool` is a subclass of `int`, and `int` is not an instance of `float`). -/
def isinstance : PyVal → PyType → Bool
  | .str _, .str => true
  | .bool _, .bool => true
  | .bool _, .int => true
  | .int _, .int => true
  | .float _, .float => true
  | _, _ => false

def digitsVal (l : List Char) : Nat :=
  l.foldl (fun a c => a * 10 + (c.toNat - 48)) 0

/-- Python `int(s)` on a string: optional sign followed by digits. -/
def parsePyInt (s : String) : Option Int :=
  let l := s.toList
  let p : Int × List Char :=
    match l with
    | '-' :: t => (-1, t)
    | '+' :: t => (1, t)
    | _ => (1, l)
  if p.2.isEmpty || !(p.2.all Char.isDigit) then Option.none
  else some (p.1 * (digitsVal p.2 : Int))

/-- `10 ^ n` over `Nat` (kernel-friendly). -/
def pow10 (n : Nat) : Nat := 10 ^ n

/-- Python `float(s)` on a string: sign, integer part, optional fraction,
optional exponent (whitespace/inf/nan forms are not used by this program).
The value is the exact rational the decimal literal denotes. -/
def parsePyFloat (s : String) : Option Rat :=
  let l := s.toList
  let p : Int × List Char :=
    match l with
    | '-' :: t => (-1, t)
    | '+' :: t => (1, t)
    | _ => (1, l)
  let ip := p.2.takeWhile Char.isDigit
  let rest := p.2.dropWhile Char.isDigit
  let fr : List Char × List Char :=
    match rest with
    | '.' :: t => (t.takeWhile Char.isDigit, t.dropWhile Char.isDigit)
    | _ => ([], rest)
  if ip.isEmpty && fr.1.isEmpty then Option.none
  else
    let mantNum : Int := p.1 * (digitsVal (ip ++ fr.1) : Int)
    match fr.2 with
    | [] => some (mkRat mantNum (pow10 fr.1.length))
    | e :: t =>
      if e == 'e' || e == 'E' then
        let ep : Int × List Char :=
          match t with
          | '-' :: t2 => (-1, t2)
          | '+' :: t2 => (1, t2)
          | _ => (1, t)
        if ep.2.isEmpty || !(ep.2.all Char.isDigit) then Option.none
        else
          let ev := digitsVal ep.2
          some (if ep.1 ≥ 0 then mkRat (mantNum * (pow10 ev : Int)) (pow10 fr.1.length)
                else mkRat mantNum (pow10 (fr.1.length + ev)))
      else Option.none

/-- Boolean `≤` on rationals (Python float comparison, exact here). -/
def ratLe (a b : Rat) : Bool := !(Rat.blt b a)

/-- `str(v)`.  The exact decimal representation Python prints for floats and
dicts is not needed by any claim; placeholders keep the function total. -/
def pyStrOf : PyVal → String
  | .str s => s
  | .bool b => if b then "True" else "False"
  | .int n => toString n
  | .float q => toString q
  | .none => "None"
  | .dict _ => "dict"

/-- `desired_type(val)`: applying the declared type as a constructor, as
`MainBase.__validate_arg` does.  Failures are the coercion `TypeError`. -/
def coerce (t : PyType) (v : PyVal) : Except PyErr PyVal :=
  match t with
  | .str => .ok (.str (pyStrOf v))
  | .bool => .ok (.bool v.truthy)
  | .int =>
    match v with
    | .str s =>
      match parsePyInt s with
      | some n => .ok (.int n)
      | Option.none => .error .typeCoercion
    | .bool b => .ok (.int (if b then 1 else 0))
    | .int n => .ok (.int n)
    | .float q => .ok (.int (q.num.tdiv (q.den : Int)))
    | _ => .error .typeCoercion
  | .float =>
    match v with
    | .str s =>
      match parsePyFloat s with
      | some q => .ok (.float q)
      | Option.none => .error .typeCoercion
    | .bool b => .ok (.float (if b then 1 else 0))
    | .int n => .ok (.float (mkRat n 1))
    | .float q => .ok (.float q)
    | _ => .error .typeCoercion

/-! ## BaseConfig (src/quickconfig/base_config.py) -/

/-- The descriptor stored by `add_argument` in `arg_dict`:
`{"type": type, "validation": validation}`. -/
structure ArgInfo where
  type : PyType
  validation : Option (PyVal → Bool)

/-- A `BaseConfig` instance.  `attrs` is the instance `__dict__` restricted
to argument-style attributes; `locked` / `frozen` mirror the truthiness of
those attributes (class default `False`).  `arg_dict` values may be `none`
because checkpoint merging stores literal `None` descriptors. -/
structure BaseConfig where
  locked : Bool := false
  frozen : Bool := false
  attrs : List (String × PyVal) := []
  arg_dict : List (String × Option ArgInfo) := []
  help_dict : List (String × String) := []

/-- `BaseConfig()` — `__init__` creates empty `arg_dict` and `help_dict`. -/
def BaseConfig.empty : BaseConfig := {}

/-- Ordered association-list update, matching Python dict/attribute
assignment (updates in place, appends new keys at the end). -/
def updList {α : Type} : List (String × α) → String → α → List (String × α)
  | [], k, v => [(k, v)]
  | (k', v') :: t, k, v =>
    if k' == k then (k, v) :: t else (k', v') :: updList t k v

def BaseConfig.reservedAttributes : List String :=
  ["arg_dict", "help_dict", "locked", "frozen", "add_argument", "to_dict",
   "reserved_attributes"]

/-- The inherited attribute names every `BaseConfig` instance carries in
addition to its own: the dunder attributes contributed by `object` and by
the class itself (`__init__`, `__setattr__`, `__dict__`, ...).  Python's
`dir(subcfg)` and `hasattr(subcfg, k)` include all of these. -/
def BaseConfig.dunderAttributes : List String :=
  ["__class__", "__delattr__", "__dict__", "__dir__", "__doc__", "__eq__",
   "__format__", "__ge__", "__getattribute__", "__gt__", "__hash__",
   "__init__", "__init_subclass__", "__le__", "__lt__", "__module__",
   "__ne__", "__new__", "__reduce__", "__reduce_ex__", "__repr__",
   "__setattr__", "__sizeof__", "__str__", "__subclasshook__", "__weakref__"]

/-- Python `hasattr(self, k)` (and membership in `dir(self)`): an instance
attribute, a class-level attribute/method of `BaseConfig` (exactly the
reserved names), or one of the inherited dunder attributes. -/
def BaseConfig.hasattr (c : BaseConfig) (k : String) : Bool :=
  (c.attrs.lookup k).isSome || BaseConfig.reservedAttributes.contains k
    || BaseConfig.dunderAttributes.contains k

/-- `getattr(self, k)` for the attributes this program reads. -/
def BaseConfig.getattr (c : BaseConfig) (k : String) : Option PyVal :=
  match c.attrs.lookup k with
  | some v => some v
  | Option.none =>
    if k == "locked" then some (.bool c.locked)
    else if k == "frozen" then some (.bool c.frozen)
    else Option.none

/-- `object.__setattr__`: store the raw value; assignments to `locked` /
`frozen` additionally refresh the flags the guards read (truthiness). -/
def BaseConfig.setattrRaw (c : BaseConfig) (k : String) (v : PyVal) : BaseConfig :=
  { c with
    attrs := updList c.attrs k v
    locked := if k == "locked" then v.truthy else c.locked
    frozen := if k == "frozen" then v.truthy else c.frozen }

/-- `BaseConfig.__setattr__` (base_config.py lines 59-82): reserved-name
check first (skipped for the key `"frozen"`), then the frozen check, then
the locked/new-attribute check. -/
def BaseConfig.setattr (c : BaseConfig) (k : String) (v : PyVal) : Except PyErr BaseConfig :=
  if BaseConfig.reservedAttributes.contains k && c.locked && !(k == "frozen") then
    .error .reservedAttr
  else if c.frozen then .error .frozenCfg
  else if c.locked && !(c.hasattr k) then .error .lockedCfg
  else .ok (c.setattrRaw k v)

/-- `BaseConfig.add_argument` (base_config.py lines 28-57). -/
def BaseConfig.add_argument (c : BaseConfig) (name : String) (ty : PyType)
    (default : PyVal) (help : String) (validation : Option (PyVal → Bool)) :
    Except PyErr BaseConfig :=
  if !(isinstance default ty) && !default.isNoneV && !default.isStrNone then
    .error .declTypeConflict
  else if (match validation with
           | some f => !default.isNoneV && !default.isStrNone && !(f default)
           | Option.none => false) then
    .error .declValidation
  else do
    let c ← c.setattr name default
    .ok { c with
          arg_dict := updList c.arg_dict name (some ⟨ty, validation⟩)
          help_dict := updList c.help_dict name help }

/-- `BaseConfig.to_dict`: iterates `arg_dict` and reads each attribute. -/
def BaseConfig.to_dict (c : BaseConfig) : Except PyErr (List (String × PyVal)) :=
  c.arg_dict.foldlM
    (fun acc kv =>
      match c.getattr kv.1 with
      | some v => .ok (acc ++ [(kv.1, v)])
      | Option.none => .error .attributeError)
    []

/-! ## MainBase (src/quickconfig/main_base.py)

A crucial source detail, modelled faithfully: the class attribute
`__frozen` is name-mangled to `_MainBase__frozen`, and that is the flag
`MainBase.__setattr__` reads (`if self.__frozen:`).  The last line of
`build` executes `self.frozen = True`, which sets the *plain* attribute
`"frozen"` — it never assigns `_MainBase__frozen`, and nothing else does.
In the model `mainFrozen` is `_MainBase__frozen` (read by the setattr
guard, never written), while the plain attribute lands in `rootAttrs`. -/

/-- A `MainBase` instance.  `subcfgClasses` are the subconfig *classes*
assigned as attributes by the user subclass `__init__` (calling one runs
the subconfig's `__init__`, i.e. its `add_argument` sequence);
`subcfgs` are the instances created by `__set_defaults` (and by
checkpoint merging); `subconfigNames` is `_MainBase__subconfigs`. -/
structure MainCfg where
  prog : String := ""
  description : String := ""
  mainFrozen : Bool := false
  dontSave : Bool := false
  evalMode : Bool := false
  subconfigNames : List String := []
  subcfgClasses : List (String × (Unit → Except PyErr BaseConfig)) := []
  subcfgs : List (String × BaseConfig) := []
  rootAttrs : List (String × PyVal) := []

/-- The build environment: `argv` is `sys.argv[1:]`, `fs` maps a path to
the parsed JSON stored there, `today` is `datetime.today().strftime(...)`,
and `alloc` is the external session-directory allocator
(`SessionSaver.configure_save_dir_and_run_id`, returning the run dir). -/
structure BuildEnv where
  argv : List String
  fs : List (String × PyVal)
  today : String
  alloc : String → String → String

def MainCfg.reservedAttributes : List String :=
  ["reserved_attributes", "build", "to_dict", "prog", "description"]

/-- `MainBase.__setattr__` (main_base.py lines 443-458) for a plain
attribute: the guard reads `_MainBase__frozen`. -/
def MainCfg.setattrVal (m : MainCfg) (k : String) (v : PyVal) : Except PyErr MainCfg :=
  if m.mainFrozen then .error .mainFrozenErr
  else .ok { m with rootAttrs := updList m.rootAttrs k v }

/-- `MainBase.__setattr__` for storing a subconfig instance. -/
def MainCfg.setSubcfg (m : MainCfg) (k : String) (c : BaseConfig) : Except PyErr MainCfg :=
  if m.mainFrozen then .error .mainFrozenErr
  else .ok { m with subcfgs := updList m.subcfgs k c }

/-- `json.load(open(path))`: the filesystem holds parsed values. -/
def loadJson (fs : List (String × PyVal)) (p : String) : Except PyErr PyVal :=
  match fs.lookup p with
  | some v => .ok v
  | Option.none => .error .fileNotFound

/-- The per-entry body of `__load_subconfigs_from_filepath`: a string value
ending in `.json` is replaced by the file it names when that file loads,
and any failure inside the `try` keeps the original value. -/
def loadEntryVal (fs : List (String × PyVal)) (v : PyVal) : PyVal :=
  match v with
  | .str s =>
    if strEndsWith s ".json" then
      match fs.lookup s with
      | some j => j
      | Option.none => v
    else v
  | _ => v

/-- `MainBase.__load_subconfigs_from_filepath` (lines 245-264); `.items()`
on a non-dict raises `AttributeError`. -/
def loadSubconfigsFromFilepath (fs : List (String × PyVal)) (config : PyVal) :
    Except PyErr (List (String × PyVal)) :=
  match config with
  | .dict entries => .ok (entries.map (fun kv => (kv.1, loadEntryVal fs kv.2)))
  | _ => .error .attributeError

/-- `MainBase.__assure_no_additional_keys` (lines 298-312). -/
def assureNoAdditionalKeys (m : MainCfg) (entries : List (String × PyVal)) :
    Except PyErr Unit :=
  if entries.all (fun kv => m.subconfigNames.contains kv.1) then .ok ()
  else .error .unknownSubconfig

/-- `MainBase.__validate_arg` (lines 403-433): subscript `arg_dict`
(KeyError when missing, TypeError when the stored descriptor is `None`),
apply the type as a constructor, then re-run validation. -/
def validateArg (subcfg : BaseConfig) (argName : String) (v : PyVal) :
    Except PyErr PyVal :=
  match subcfg.arg_dict.lookup argName with
  | Option.none => .error .keyError
  | some Option.none => .error .noneTypeSubscript
  | some (some info) => do
    let v' ← coerce info.type v
    match info.validation with
    | Option.none => .ok v'
    | some f => if f v' then .ok v' else .error .validationFailure

/-- `MainBase.__override_individual_subconfig` (lines 314-343).  With
`assureInDir` the argument must already exist (`dir(subcfg)` membership is
`hasattr` here) and is coerced+validated; without it (checkpoint merging)
the descriptor slot is set to literal `None` and the value is assigned
untouched.  Either way the assignment runs through
`BaseConfig.__setattr__`. -/
def overrideIndividualSubconfig (m : MainCfg) (name : String) (sub : PyVal)
    (assureInDir : Bool) : Except PyErr MainCfg :=
  match sub with
  | .dict entries =>
    entries.foldlM
      (fun m kv => do
        match m.subcfgs.lookup name with
        | Option.none => .error .attributeError
        | some subcfg =>
          if assureInDir then do
            if !(subcfg.hasattr kv.1) then .error .unknownArgumentFile
            else do
              let v' ← validateArg subcfg kv.1 kv.2
              let subcfg' ← subcfg.setattr kv.1 v'
              .ok { m with subcfgs := updList m.subcfgs name subcfg' }
          else do
            let subcfg := { subcfg with arg_dict := updList subcfg.arg_dict kv.1 Option.none }
            let subcfg' ← subcfg.setattr kv.1 kv.2
            .ok { m with subcfgs := updList m.subcfgs name subcfg' })
      m
  | _ => .error .attributeError

/-- `MainBase.__override_with_filebased_args` (lines 345-359). -/
def overrideWithFilebasedArgs (m : MainCfg) (entries : List (String × PyVal))
    (assureInDir : Bool) : Except PyErr MainCfg :=
  entries.foldlM (fun m kv => overrideIndividualSubconfig m kv.1 kv.2 assureInDir) m

/-- `MainBase.__determine_config_path` (lines 266-280): the last token
containing `config=`, split on it, last part. -/
def determineConfigPath (args : List String) : String :=
  args.foldl (fun acc arg => if strContains arg "config=" then afterLast arg "config=" else acc) ""

/-- `MainBase.__override_with_cmdline_args` (lines 361-401). -/
def overrideWithCmdlineArgs (m : MainCfg) (fs : List (String × PyVal))
    (cmdArgs : List String) (assureInDir : Bool) : Except PyErr MainCfg :=
  cmdArgs.foldlM
    (fun m arg => do
      match splitOnce arg "=" with
      | Option.none => .error .valueErrorUnpack
      | some (name, val) =>
        if name == "config" then .ok m
        else if !(strContains name ".") then
          if m.subconfigNames.contains name then do
            let subconfig ← loadJson fs val
            overrideIndividualSubconfig m name subconfig true
          else .error .invalidArgName
        else
          match pySplit name "." with
          | [subcfgName, argName] =>
            match m.subcfgs.lookup subcfgName with
            | Option.none => .error .attributeError
            | some subcfg =>
              if assureInDir && !(subcfg.hasattr argName) then .error .unknownArgumentCmd
              else do
                let v' ← (if assureInDir then validateArg subcfg argName (.str val)
                          else .ok (.str val))
                let subcfg' ← subcfg.setattr argName v'
                .ok { m with subcfgs := updList m.subcfgs subcfgName subcfg' }
          | _ => .error .valueErrorUnpack)
    m

/-- `MainBase.__override_defaults` (lines 226-243): file-based overrides
(when a `config=` token names a file), then command-line overrides. -/
def overrideDefaults (m : MainCfg) (fs : List (String × PyVal))
    (cmdArgs : List String) : Except PyErr MainCfg := do
  let configPath := determineConfigPath cmdArgs
  let m ←
    if configPath == "" then .ok m
    else do
      let config ← loadJson fs configPath
      let entries ← loadSubconfigsFromFilepath fs config
      let _ ← assureNoAdditionalKeys m entries
      overrideWithFilebasedArgs m entries true
  overrideWithCmdlineArgs m fs cmdArgs true

/-- `MainBase.__load_checkpoint_config_if_indicated` (lines 70-88): runs
exactly when `_MainBase__subconfigs == ["evaluation"]`; derives the config
path by `checkpoint.rsplit("/", 1)[0]` joined with `config.json`; loads it;
attaches one brand-new `BaseConfig()` per top-level key; merges values with
`assure_in_dir=False` (no coercion, no validation); sets eval mode. -/
def loadCheckpointConfigIfIndicated (m : MainCfg) (fs : List (String × PyVal)) :
    Except PyErr MainCfg :=
  if m.subconfigNames == ["evaluation"] then do
    match m.subcfgs.lookup "evaluation" with
    | Option.none => .error .attributeError
    | some subcfg =>
      match subcfg.getattr "checkpoint" with
      | Option.none => .error .attributeError
      | some (PyVal.str cpath) => do
        let configPath := osPathJoin (rsplitDir cpath) "config.json"
        let config ← loadJson fs configPath
        let entries ← loadSubconfigsFromFilepath fs config
        let m := entries.foldl
          (fun m kv =>
            { m with
              subcfgs := updList m.subcfgs kv.1 BaseConfig.empty
              subconfigNames := m.subconfigNames ++ [kv.1] })
          m
        let _ ← assureNoAdditionalKeys m entries
        let m ← overrideWithFilebasedArgs m entries false
        .ok { m with evalMode := true }
      | some _ => .error .attributeError
  else .ok m

/-- `MainBase.to_dict` (lines 90-104): for each subconfig name, iterate the
subconfig's `help_dict` keys and read the current values. -/
def MainCfg.to_dict (m : MainCfg) : Except PyErr (List (String × List (String × PyVal))) :=
  m.subconfigNames.foldlM
    (fun acc cfg =>
      match m.subcfgs.lookup cfg with
      | Option.none => .error .attributeError
      | some val => do
        let inner ← val.help_dict.foldlM
          (fun acc2 kv =>
            match val.getattr kv.1 with
            | some v => .ok (acc2 ++ [(kv.1, v)])
            | Option.none => .error .attributeError)
          []
        .ok (acc ++ [(cfg, inner)]))
    []

/-- One step of the scan in `__set_save_dir_experiment_name`
(lines 133-156): a token containing `save_dir` or `experiment_name`
(substring test!) is captured, everything else is kept. -/
def ssdeStep (acc : List String × String × String) (arg : String) :
    List String × String × String :=
  if strContains arg "save_dir" then (acc.1, arg, acc.2.2)
  else if strContains arg "experiment_name" then (acc.1, acc.2.1, arg)
  else (acc.1 ++ [arg], acc.2.1, acc.2.2)

/-- `MainBase.__set_save_dir_experiment_name`. -/
def setSaveDirExpName (today : String) (args : List String) :
    List String × String × String :=
  let r := args.foldl ssdeStep ([], "results", today)
  (r.1, afterLast r.2.1 "=", afterLast r.2.2 "=")

/-- `MainBase.__display_help` (lines 158-210), modelled by its effect on
the token list: when a help token is present, remove the first `--h`
(or, when there is none, the first `--help`).  Printing is a console
side effect that is not modelled. -/
def displayHelp (args : List String) : List String :=
  if args.contains "--h" then removeFirst args "--h"
  else if args.contains "--help" then removeFirst args "--help"
  else args

/-- `MainBase.__set_defaults` (lines 212-224): discover subconfig names
from `dir(self)` (sorted, excluding dunder-containing and reserved names),
instantiate each class (running its `add_argument` calls) and lock it. -/
def MainCfg.set_defaults (m : MainCfg) : Except PyErr MainCfg := do
  let names := sortStrings
    ((m.subcfgClasses.map Prod.fst).filter
      (fun a => !(strContains a "__") && !(MainCfg.reservedAttributes.contains a)))
  let m := { m with subconfigNames := names }
  names.foldlM
    (fun m cfg =>
      match m.subcfgClasses.lookup cfg with
      | Option.none => .error .attributeError
      | some init => do
        let c ← init ()
        let c ← c.setattr "locked" (.bool true)
        m.setSubcfg cfg c)
    m

/-- `MainBase.__freeze_configs` (lines 435-441). -/
def freezeConfigs (m : MainCfg) : Except PyErr MainCfg :=
  m.subconfigNames.foldlM
    (fun m name =>
      match m.subcfgs.lookup name with
      | Option.none => .error .attributeError
      | some c => do
        let c' ← c.setattr "frozen" (.bool true)
        m.setSubcfg name c')
    m

/-- `MainBase.build` (lines 38-68).  Note that the final `self.frozen =
True` stores the plain attribute `"frozen"`; the mangled guard flag
`_MainBase__frozen` is never assigned. -/
def MainCfg.build (m : MainCfg) (env : BuildEnv) (dontSave : Bool) :
    Except PyErr MainCfg := do
  let m := { m with dontSave := dontSave }
  let r := setSaveDirExpName env.today env.argv
  let m ← m.set_defaults
  let cmdArgs := displayHelp r.1
  let m ← overrideDefaults m env.fs cmdArgs
  let m ← loadCheckpointConfigIfIndicated m env.fs
  let saveDir := if m.evalMode && (r.2.1 == "results") then "eval_results" else r.2.1
  let m ← freezeConfigs m
  let m ←
    if !m.dontSave then do
      let sd := env.alloc saveDir r.2.2
      let _ ← m.to_dict
      m.setattrVal "save_dir" (.str sd)
    else m.setattrVal "save_dir" PyVal.none
  m.setattrVal "frozen" (.bool true)

/-- Read the current value of `subcfg.arg` out of a finished (or failed)
build: `Option.none` when the build failed or the attribute is missing. -/
def buildGet (res : Except PyErr MainCfg) (sub arg : String) : Option PyVal :=
  match res with
  | .ok m =>
    match m.subcfgs.lookup sub with
    | some c => c.getattr arg
    | Option.none => Option.none
  | .error _ => Option.none

/-- Observe a finished build. -/
def onBuilt {α : Type} (res : Except PyErr MainCfg) (f : MainCfg → α) : Option α :=
  match res with
  | .ok m => some (f m)
  | .error _ => Option.none

def okB {α : Type} : Except PyErr α → Bool
  | .ok _ => true
  | .error _ => false

/-! ## Example schemas (src/example/) and a minimal evaluation schema -/

/-- `lambda x: x in ["retinanet", "patch"]` (model_config.py). -/
def modelTypeValidation : PyVal → Bool
  | .str s => s == "retinanet" || s == "patch"
  | _ => false

/-- `lambda x: x >= 1e-9 and x <= 1e-2` (training_config.py); only ever
applied to coerced floats. -/
def lrValidation : PyVal → Bool
  | .float q => ratLe (mkRat 1 1000000000) q && ratLe q (mkRat 1 100)
  | _ => false

/-- `ModelConfig.__init__` (model_config.py). -/
def ModelConfigInit : Unit → Except PyErr BaseConfig := fun _ =>
  BaseConfig.empty.add_argument "model_type" .str (.str "retinanet")
    "The type of model to use" (some modelTypeValidation)

/-- `TrainingConfig.__init__` (training_config.py). -/
def TrainingConfigInit : Unit → Except PyErr BaseConfig := fun _ => do
  let c ← BaseConfig.empty.add_argument "dataset_to_use" .str (.str "default")
    "Which dataset do we want to use?" Option.none
  let c ← c.add_argument "use_mlflow_logger" .bool (.bool false)
    "Should we log with mlflow?" Option.none
  c.add_argument "lr" .float (.float (mkRat 1 1000))
    "This is a mock integer arg" (some lrValidation)

/-- `MainConfig.__init__` (main_config.py): `self.model = ModelConfig`,
`self.training = TrainingConfig`. -/
def exampleMain : MainCfg :=
  { prog := "train.sh"
    description := "Train a model"
    subcfgClasses := [("model", ModelConfigInit), ("training", TrainingConfigInit)] }

/-- A user evaluation schema (user input to the library, exercising the
checkpoint-indirection path of main_base.py): a single subconfig named
`evaluation` declaring a `checkpoint` path and a `note`. -/
def EvalConfigInit : Unit → Except PyErr BaseConfig := fun _ => do
  let c ← BaseConfig.empty.add_argument "checkpoint" .str (.str "runs/exp1/model.pt")
    "Path to the checkpoint to evaluate" Option.none
  c.add_argument "note" .str (.str "a") "Free-form note" Option.none

def evalMain : MainCfg :=
  { prog := "eval.sh"
    description := "Evaluate a model"
    subcfgClasses := [("evaluation", EvalConfigInit)] }

/-- Trivial allocator used where persistence is suppressed. -/
def noAlloc : String → String → String := fun a _ => a

/-- A fixed run date for the scenarios. -/
def todayStr : String := "2026-10-12"

/-- `config.build(dont_save=True)` on the example schema with an empty
command line. -/
def exampleBuildRes : Except PyErr MainCfg :=
  MainCfg.build exampleMain ⟨[], [], todayStr, noAlloc⟩ true

/-- The `model` subconfig as it stands after `build()` on the example
schema with no overrides (instantiated, defaults realised, locked, frozen;
verified against `exampleBuildRes` by `rfl` below). -/
def builtModel : BaseConfig :=
  { locked := true
    frozen := true
    attrs := [("model_type", .str "retinanet"), ("locked", .bool true), ("frozen", .bool true)]
    arg_dict := [("model_type", some ⟨.str, some modelTypeValidation⟩)]
    help_dict := [("model_type", "The type of model to use")] }

/-- A persisted training run: the checkpoint's sibling `config.json`
(as written by a previous frozen run of the example schema's `model`
subconfig). -/
def evalFs : List (String × PyVal) :=
  [("runs/exp1/config.json", .dict [("model", .dict [("model_type", .str "patch")])])]

/-- `build(dont_save=True)` on the evaluation schema with an empty command
line, triggering checkpoint-config indirection. -/
def evalBuildRes : Except PyErr MainCfg :=
  MainCfg.build evalMain ⟨[], evalFs, todayStr, noAlloc⟩ true

/-! ## Helper lemmas -/

theorem lookup_updList_self {α : Type} (l : List (String × α)) (k : String) (v : α) :
    (updList l k v).lookup k = some v := by
  induction l with
  | nil => simp [updList, List.lookup]
  | cons h t ih =>
    rcases h with ⟨k', v'⟩
    by_cases hk : k' = k
    · subst hk
      simp [updList, List.lookup]
    · have hkb : (k' == k) = false := by simp [hk]
      have hkb2 : (k == k') = false := by simp [Ne.symm hk]
      simp [updList, hkb, hkb2, List.lookup, ih]

theorem ssde_shift (args : List String) (xs : List String) (sd en : String) :
    args.foldl ssdeStep (xs, sd, en) =
      (xs ++ (args.foldl ssdeStep ([], sd, en)).1, (args.foldl ssdeStep ([], sd, en)).2) := by
  induction args generalizing xs sd en with
  | nil => simp
  | cons a t ih =>
    simp only [List.foldl_cons, ssdeStep]
    by_cases h1 : strContains a "save_dir" = true
    · simp only [h1, if_true]
      exact ih xs a en
    · by_cases h2 : strContains a "experiment_name" = true
      · simp only [h1, h2, if_true, if_false, Bool.not_eq_true]
        simp only [h1, Bool.false_eq_true, if_false]
        exact ih xs sd a
      · simp only [h1, h2, Bool.false_eq_true, if_false]
        rw [ih (xs ++ [a]) sd en, ih ([] ++ [a]) sd en]
        simp

theorem ssde_mem (args : List String) (sd en : String) (x : String)
    (hx : x ∈ (args.foldl ssdeStep ([], sd, en)).1) : x ∈ args := by
  induction args generalizing sd en with
  | nil => simp at hx
  | cons a t ih =>
    simp only [List.foldl_cons, ssdeStep] at hx
    by_cases h1 : strContains a "save_dir" = true
    · simp only [h1, if_true] at hx
      exact List.mem_cons_of_mem a (ih a en hx)
    · by_cases h2 : strContains a "experiment_name" = true
      · simp only [h1, h2, Bool.false_eq_true, if_false, if_true] at hx
        exact List.mem_cons_of_mem a (ih sd a hx)
      · simp only [h1, h2, Bool.false_eq_true, if_false] at hx
        rw [ssde_shift t ([] ++ [a]) sd en] at hx
        simp only [List.nil_append, List.cons_append, List.mem_cons, List.mem_append,
          List.mem_singleton] at hx
        rcases hx with h | h
        · simp [h]
        · exact List.mem_cons_of_mem a (ih sd en (by simpa using h))

theorem removeFirst_append_cons (l1 l2 : List String) (t : String) (h : t ∉ l1) :
    removeFirst (l1 ++ t :: l2) t = l1 ++ l2 := by
  induction l1 with
  | nil => simp [removeFirst]
  | cons a l1 ih =>
    have ha : ¬ (a = t) := fun hc => h (by simp [hc])
    simp only [List.cons_append, removeFirst]
    rw [if_neg (by simpa using ha)]
    have hrec := ih (fun hc => h (List.mem_cons_of_mem a hc))
    simp only [List.append_eq] at hrec ⊢
    rw [hrec]

/-! ## Claim theorems -/

/-- Claim C5 (counterexample): the claim states that while an instance is
locked, an assignment to a reserved name fails unless it is the freeze
transition `frozen = true`; but the source exempts the *key* `"frozen"`
from the reserved-name check regardless of the assigned value, so on a
locked, unfrozen config the assignment `frozen = False` succeeds. -/
theorem frozen_false_assignment_permitted_while_locked :
    okB (BaseConfig.setattr
      { locked := true, frozen := false, attrs := [], arg_dict := [], help_dict := [] }
      "frozen" (.bool false)) = true := rfl

/-- Claim C5 (amended): `BaseConfig.__setattr__` fails exactly when the
name is reserved while the instance is locked and the name is not
`"frozen"` (any assignment to `"frozen"` itself bypasses the reserved-name
check, not just the freeze transition), or the instance is frozen, or the
instance is locked and the name is not an existing attribute; otherwise it
succeeds. -/
theorem subconfig_setattr_state_machine (c : BaseConfig) (k : String) (v : PyVal) :
    okB (c.setattr k v) = false ↔
      (BaseConfig.reservedAttributes.contains k = true ∧ c.locked = true ∧ k ≠ "frozen")
      ∨ c.frozen = true ∨ (c.locked = true ∧ c.hasattr k = false) := by
  cases hr : BaseConfig.reservedAttributes.contains k <;>
    cases hl : c.locked <;>
      cases hf : c.frozen <;>
        cases hh : c.hasattr k <;>
          cases he : k == "frozen" <;>
            simp_all [BaseConfig.setattr, okB, beq_iff_eq, ne_eq]

/-- Claim C7: in the declaration phase (unlocked, unfrozen),
`add_argument` raises the declaration `TypeError` exactly when the default
is neither a "none" sentinel (`None` or `"none"`) nor an instance of the
declared type; it raises the declaration `ValueError` exactly when the
type check passes, a validation predicate is given, and it rejects the
non-sentinel default; and on success the argument's current value is the
default and the help text is recorded. -/
theorem add_argument_declaration_checks (c : BaseConfig) (name : String) (ty : PyType)
    (default : PyVal) (help : String) (validation : Option (PyVal → Bool))
    (hl : c.locked = false) (hf : c.frozen = false) :
    (c.add_argument name ty default help validation = .error .declTypeConflict ↔
      isinstance default ty = false ∧ isSentinel default = false) ∧
    (c.add_argument name ty default help validation = .error .declValidation ↔
      ¬(isinstance default ty = false ∧ isSentinel default = false) ∧
      ∃ f, validation = some f ∧ isSentinel default = false ∧ f default = false) ∧
    (∀ c', c.add_argument name ty default help validation = .ok c' →
      c'.getattr name = some default ∧ c'.help_dict.lookup name = some help) := by
  have hset : c.setattr name default = .ok (c.setattrRaw name default) := by
    simp [BaseConfig.setattr, hl, hf]
  unfold BaseConfig.add_argument
  rcases validation with _ | f
  · cases hi : isinstance default ty <;>
      cases hn : default.isNoneV <;>
        cases hs : default.isStrNone <;>
          simp_all [isSentinel, Bind.bind, Except.bind, BaseConfig.getattr,
                    BaseConfig.setattrRaw, lookup_updList_self]
  · cases hi : isinstance default ty <;>
      cases hn : default.isNoneV <;>
        cases hs : default.isStrNone <;>
          cases hfd : f default <;>
            simp_all [isSentinel, Bind.bind, Except.bind, BaseConfig.getattr,
                      BaseConfig.setattrRaw, lookup_updList_self]

/-- Claim C7 (witness): the theorem instantiated at the `lr` declaration
of the example training schema. -/
theorem add_argument_declaration_checks_witness :
    (BaseConfig.empty.add_argument "lr" .float (.float (mkRat 1 1000))
        "This is a mock integer arg" (some lrValidation) = .error .declTypeConflict ↔
      isinstance (.float (mkRat 1 1000)) .float = false ∧
        isSentinel (.float (mkRat 1 1000)) = false) ∧
    (BaseConfig.empty.add_argument "lr" .float (.float (mkRat 1 1000))
        "This is a mock integer arg" (some lrValidation) = .error .declValidation ↔
      ¬(isinstance (.float (mkRat 1 1000)) .float = false ∧
          isSentinel (.float (mkRat 1 1000)) = false) ∧
      ∃ f, (some lrValidation : Option (PyVal → Bool)) = some f ∧
        isSentinel (.float (mkRat 1 1000)) = false ∧ f (.float (mkRat 1 1000)) = false) ∧
    (∀ c', BaseConfig.empty.add_argument "lr" .float (.float (mkRat 1 1000))
        "This is a mock integer arg" (some lrValidation) = .ok c' →
      c'.getattr "lr" = some (.float (mkRat 1 1000)) ∧
        c'.help_dict.lookup "lr" = some "This is a mock integer arg") :=
  add_argument_declaration_checks BaseConfig.empty "lr" .float (.float (mkRat 1 1000))
    "This is a mock integer arg" (some lrValidation) rfl rfl

/-- Claim C3 (code bug): after `build()` every subconfig is frozen and
every attribute assignment on it fails — but the root's own freeze guard
never engages.  `build` ends with `self.frozen = True`, which sets the
plain attribute `"frozen"`, while `MainBase.__setattr__` reads the
name-mangled `_MainBase__frozen`, which nothing ever assigns; so even
though the root reports `frozen == True`, any root attribute assignment
(including resetting `frozen` itself) still succeeds. -/
theorem root_freeze_guard_never_engages :
    onBuilt exampleBuildRes (fun m => m.rootAttrs.lookup "frozen") = some (some (.bool true)) ∧
    onBuilt exampleBuildRes (fun m => m.mainFrozen) = some false ∧
    onBuilt exampleBuildRes (fun m => okB (m.setattrVal "anything" (.int 7))) = some true ∧
    onBuilt exampleBuildRes (fun m => okB (m.setattrVal "frozen" (.bool false))) = some true ∧
    onBuilt exampleBuildRes (fun m => m.subcfgs.lookup "model") = some (some builtModel) ∧
    (∀ (k : String) (v : PyVal), okB (builtModel.setattr k v) = false) := by
  refine ⟨rfl, rfl, rfl, rfl, rfl, fun k v => ?_⟩
  simp only [BaseConfig.setattr]
  split
  · rfl
  · rfl

/-- Claim C4 (code bug): `to_dict` on the root iterates each subconfig's
`help_dict`, which stays empty for subconfigs attached by checkpoint
indirection (the merge writes `arg_dict` — whose own comment says this is
done "so it can be returned with to_dict()" — but never `help_dict`), so
the export maps a checkpoint-added subconfig to an empty dict even though
its arguments are present. -/
theorem export_omits_checkpoint_added_arguments :
    onBuilt evalBuildRes (fun m => m.to_dict) =
      some (.ok [("evaluation",
        [("checkpoint", .str "runs/exp1/model.pt"), ("note", .str "a")]), ("model", [])]) ∧
    onBuilt evalBuildRes
        (fun m => (m.subcfgs.lookup "model").map (fun c => c.getattr "model_type")) =
      some (some (some (.str "patch"))) := ⟨rfl, rfl⟩

/-- Claim C2 (counterexample): the claim says the command-line override
step runs after checkpoint indirection and therefore overrides
checkpoint-derived values; in the source, `build` runs
`__override_with_cmdline_args` (inside `__override_defaults`) *before*
`__load_checkpoint_config_if_indicated`, so a command-line token naming a
checkpoint-derived subconfig is processed while that subconfig does not
exist yet and build raises `AttributeError` instead of overriding. -/
theorem cmdline_token_for_checkpoint_subconfig_fails :
    MainCfg.build evalMain ⟨["model.model_type=retinanet"], evalFs, todayStr, noAlloc⟩ true =
      .error .attributeError := rfl

/-- Claim C2 (amended): command-line overrides are applied before the
checkpoint-config indirection step: a token targeting a declared
subconfig (`evaluation.note=cmd`) is applied, and afterwards the
checkpoint-derived subconfigs are merged on top, with eval mode set. -/
theorem cmdline_override_precedes_checkpoint_merge :
    buildGet (MainCfg.build evalMain ⟨["evaluation.note=cmd"], evalFs, todayStr, noAlloc⟩ true)
        "evaluation" "note" = some (.str "cmd") ∧
    buildGet (MainCfg.build evalMain ⟨["evaluation.note=cmd"], evalFs, todayStr, noAlloc⟩ true)
        "model" "model_type" = some (.str "patch") ∧
    onBuilt (MainCfg.build evalMain ⟨["evaluation.note=cmd"], evalFs, todayStr, noAlloc⟩ true)
        (fun m => m.evalMode) = some true := ⟨rfl, rfl, rfl⟩

/-- Claim C10: overrides of a `bool`-declared argument apply `bool` as a
constructor to the raw string, so every non-empty string (including
`"False"`) coerces to `True`, the empty string coerces to `False`, and the
coercion never raises; shown on the coercion function for every string and
end-to-end through `build` for a command-line and a file-based override of
`training.use_mlflow_logger` with the string `"False"`. -/
theorem bool_coercion_truthiness :
    (∀ s : String, coerce PyType.bool (.str s) = .ok (.bool (!(s == "")))) ∧
    coerce PyType.bool (.str "") = .ok (.bool false) ∧
    buildGet (MainCfg.build exampleMain
        ⟨["training.use_mlflow_logger=False"], [], todayStr, noAlloc⟩ true)
      "training" "use_mlflow_logger" = some (.bool true) ∧
    buildGet (MainCfg.build exampleMain
        ⟨["config=boolcfg.json"],
         [("boolcfg.json", .dict [("training", .dict [("use_mlflow_logger", .str "False")])])],
         todayStr, noAlloc⟩ true)
      "training" "use_mlflow_logger" = some (.bool true) :=
  ⟨fun _ => rfl, rfl, rfl, rfl⟩

/-- Claim C9 (counterexample): the claim says build removes the help token
and returns normally for every invocation containing a help token; with
both spellings present, only `--h` is removed, the leftover `--help` later
fails `key=value` parsing, and build raises instead of returning
normally. -/
theorem both_help_tokens_break_build :
    MainCfg.build exampleMain ⟨["--h", "--help"], [], todayStr, noAlloc⟩ true =
      .error .valueErrorUnpack := rfl

/-- Claim C9 (amended): help interception does not halt resolution — when
the token list contains exactly one help token (either spelling), `build`
removes it, continues through the remaining resolution steps, and produces
exactly the same result as the invocation without the help token (the
printed usage listing is a console side effect outside the model). -/
theorem single_help_token_removal_preserves_build
    (root : MainCfg) (fs : List (String × PyVal)) (today : String)
    (alloc : String → String → String) (dontSave : Bool)
    (t : String) (l1 l2 : List String)
    (ht : t = "--h" ∨ t = "--help")
    (h1 : "--h" ∉ l1) (h2 : "--h" ∉ l2) (h3 : "--help" ∉ l1) (h4 : "--help" ∉ l2) :
    MainCfg.build root ⟨l1 ++ t :: l2, fs, today, alloc⟩ dontSave =
    MainCfg.build root ⟨l1 ++ l2, fs, today, alloc⟩ dontSave := by
  have hts : strContains t "save_dir" = false := by
    rcases ht with h | h <;> subst h <;> rfl
  have hte : strContains t "experiment_name" = false := by
    rcases ht with h | h <;> subst h <;> rfl
  rcases hA : List.foldl ssdeStep ([], "results", today) l1 with ⟨A1, s1, e1⟩
  rcases hB : List.foldl ssdeStep ([], s1, e1) l2 with ⟨B1, S⟩
  have hna : "--h" ∉ A1 := fun hc => h1 (ssde_mem l1 "results" today "--h" (by rw [hA]; exact hc))
  have hnb : "--h" ∉ B1 := fun hc => h2 (ssde_mem l2 s1 e1 "--h" (by rw [hB]; exact hc))
  have hpa : "--help" ∉ A1 :=
    fun hc => h3 (ssde_mem l1 "results" today "--help" (by rw [hA]; exact hc))
  have hpb : "--help" ∉ B1 :=
    fun hc => h4 (ssde_mem l2 s1 e1 "--help" (by rw [hB]; exact hc))
  have e1eq : List.foldl ssdeStep ([], "results", today) (l1 ++ t :: l2) = (A1 ++ t :: B1, S) := by
    rw [List.foldl_append, hA, List.foldl_cons]
    have hstep : ssdeStep (A1, s1, e1) t = (A1 ++ [t], s1, e1) := by
      simp [ssdeStep, hts, hte]
    rw [hstep, ssde_shift l2 (A1 ++ [t]) s1 e1, hB]
    simp
  have e2eq : List.foldl ssdeStep ([], "results", today) (l1 ++ l2) = (A1 ++ B1, S) := by
    rw [List.foldl_append, hA, ssde_shift l2 A1 s1 e1, hB]
  have dh1 : displayHelp (A1 ++ t :: B1) = A1 ++ B1 := by
    rcases ht with h | h <;> subst h
    · have c1 : ((A1 ++ "--h" :: B1).contains "--h") = true := by simp
      simp only [displayHelp, c1, if_true]
      exact removeFirst_append_cons A1 B1 "--h" hna
    · have c1 : ((A1 ++ "--help" :: B1).contains "--h") = false := by
        simp [hna, hnb]
      have c2 : ((A1 ++ "--help" :: B1).contains "--help") = true := by simp
      simp only [displayHelp, c1, c2, Bool.false_eq_true, if_false, if_true]
      exact removeFirst_append_cons A1 B1 "--help" hpa
  have dh2 : displayHelp (A1 ++ B1) = A1 ++ B1 := by
    have c1 : ((A1 ++ B1).contains "--h") = false := by
      simp [hna, hnb]
    have c2 : ((A1 ++ B1).contains "--help") = false := by
      simp [hpa, hpb]
    simp only [displayHelp, c1, c2, Bool.false_eq_true, if_false]
  simp only [MainCfg.build, setSaveDirExpName, e1eq, e2eq, dh1, dh2]

/-- Claim C9 (witness): the amended theorem at the concrete invocation
`["--h"]` versus `[]` on the example schema. -/
theorem single_help_token_removal_preserves_build_witness :
    MainCfg.build exampleMain ⟨[] ++ "--h" :: [], [], todayStr, noAlloc⟩ true =
    MainCfg.build exampleMain ⟨[] ++ [], [], todayStr, noAlloc⟩ true :=
  single_help_token_removal_preserves_build exampleMain [] todayStr noAlloc true
    "--h" [] [] (Or.inl rfl)
    (List.not_mem_nil "--h") (List.not_mem_nil "--h")
    (List.not_mem_nil "--help") (List.not_mem_nil "--help")

/-- Claim C8: checkpoint-config indirection triggers exactly when the
declared subconfig set is the single subconfig `"evaluation"` (otherwise
the step is the identity); when it triggers, it takes the `checkpoint`
value, replaces its final path component with `config.json`
(`runs/exp1/model.pt` becomes `runs/exp1/config.json`), loads that file,
attaches each top-level key as a brand-new subconfig carrying the file's
values unchanged — no type coercion and no validation descriptor
(`arg_dict` holds a literal `None`), for arbitrary values `v1`, `v2` — and
sets evaluation mode. -/
theorem checkpoint_indirection_merges_trusted_subconfigs
    (m : MainCfg) (fs : List (String × PyVal)) (ec : BaseConfig) (v1 v2 : PyVal)
    (hnames : m.subconfigNames = ["evaluation"])
    (hsub : m.subcfgs = [("evaluation", ec)])
    (hcp : ec.getattr "checkpoint" = some (.str "runs/exp1/model.pt"))
    (hfs : fs.lookup "runs/exp1/config.json" =
      some (.dict [("model", .dict [("alpha", v1), ("beta", v2)])])) :
    (∃ m', loadCheckpointConfigIfIndicated m fs = .ok m' ∧
      m'.evalMode = true ∧
      m'.subconfigNames = ["evaluation", "model"] ∧
      m'.subcfgs.lookup "evaluation" = some ec ∧
      ∃ mc, m'.subcfgs.lookup "model" = some mc ∧
        mc.getattr "alpha" = some v1 ∧ mc.getattr "beta" = some v2 ∧
        mc.arg_dict.lookup "alpha" = some Option.none ∧
        mc.arg_dict.lookup "beta" = some Option.none ∧
        mc.help_dict = []) ∧
    (∀ m2 : MainCfg, m2.subconfigNames ≠ ["evaluation"] →
      loadCheckpointConfigIfIndicated m2 fs = .ok m2) := by
  have hcp2 : ec.attrs.lookup "checkpoint" = some (.str "runs/exp1/model.pt") := by
    rcases hl : ec.attrs.lookup "checkpoint" with _ | val
    · rw [BaseConfig.getattr, hl] at hcp
      simp at hcp
    · rw [BaseConfig.getattr, hl] at hcp
      simpa using hcp
  have hrd : rsplitDir "runs/exp1/model.pt" = "runs/exp1" := rfl
  have hos : osPathJoin "runs/exp1" "config.json" = "runs/exp1/config.json" := rfl
  constructor
  · simp only [loadCheckpointConfigIfIndicated, hnames, hsub, hcp2, hfs, hrd, hos,
        loadJson, loadSubconfigsFromFilepath, loadEntryVal, assureNoAdditionalKeys,
        overrideWithFilebasedArgs, overrideIndividualSubconfig, BaseConfig.empty,
        BaseConfig.setattr, BaseConfig.setattrRaw, BaseConfig.hasattr, BaseConfig.getattr,
        BaseConfig.reservedAttributes, updList, List.foldlM, List.foldl, List.map,
        List.all, List.elem, List.contains, List.lookup, List.filter,
        Bind.bind, Except.bind, Pure.pure, Except.pure, PyVal.truthy]
    simp [hnames, hsub, hcp2, hfs, hrd, hos,
        loadJson, loadSubconfigsFromFilepath, loadEntryVal, assureNoAdditionalKeys,
        overrideWithFilebasedArgs, overrideIndividualSubconfig, BaseConfig.empty,
        BaseConfig.setattr, BaseConfig.setattrRaw, BaseConfig.hasattr, BaseConfig.getattr,
        BaseConfig.reservedAttributes, updList, List.foldlM, List.foldl, List.map,
        List.all, List.elem, List.contains, List.lookup, List.filter,
        Bind.bind, Except.bind, Pure.pure, Except.pure, PyVal.truthy]
  · intro m2 h
    have hb : (m2.subconfigNames == ["evaluation"]) = false := by simpa using h
    simp [loadCheckpointConfigIfIndicated, hb]

/-- Claim C8 (witness): the theorem at a concrete evaluation-only state
whose checkpoint points into `runs/exp1`, with a persisted `model`
subconfig holding a string and an int value. -/
theorem checkpoint_indirection_merges_trusted_subconfigs_witness :
    (∃ m', loadCheckpointConfigIfIndicated
        { subconfigNames := ["evaluation"]
          subcfgs := [("evaluation",
            { locked := true, frozen := false
              attrs := [("checkpoint", .str "runs/exp1/model.pt")]
              arg_dict := [], help_dict := [] })] }
        [("runs/exp1/config.json",
          .dict [("model", .dict [("alpha", .str "retinanet"), ("beta", .int 3)])])] = .ok m' ∧
      m'.evalMode = true ∧
      m'.subconfigNames = ["evaluation", "model"] ∧
      m'.subcfgs.lookup "evaluation" = some
        { locked := true, frozen := false
          attrs := [("checkpoint", .str "runs/exp1/model.pt")]
          arg_dict := [], help_dict := [] } ∧
      ∃ mc, m'.subcfgs.lookup "model" = some mc ∧
        mc.getattr "alpha" = some (.str "retinanet") ∧ mc.getattr "beta" = some (.int 3) ∧
        mc.arg_dict.lookup "alpha" = some Option.none ∧
        mc.arg_dict.lookup "beta" = some Option.none ∧
        mc.help_dict = []) ∧
    (∀ m2 : MainCfg, m2.subconfigNames ≠ ["evaluation"] →
      loadCheckpointConfigIfIndicated m2
        [("runs/exp1/config.json",
          .dict [("model", .dict [("alpha", .str "retinanet"), ("beta", .int 3)])])] = .ok m2) :=
  checkpoint_indirection_merges_trusted_subconfigs
    { subconfigNames := ["evaluation"]
      subcfgs := [("evaluation",
        { locked := true, frozen := false
          attrs := [("checkpoint", .str "runs/exp1/model.pt")]
          arg_dict := [], help_dict := [] })] }
    [("runs/exp1/config.json",
      .dict [("model", .dict [("alpha", .str "retinanet"), ("beta", .int 3)])])]
    { locked := true, frozen := false
      attrs := [("checkpoint", .str "runs/exp1/model.pt")]
      arg_dict := [], help_dict := [] }
    (.str "retinanet") (.int 3) rfl rfl rfl rfl

set_option maxHeartbeats 4000000 in
set_option maxRecDepth 100000 in
/-- Claim C6: unknown-key rejection, end to end through `build` on the
example schema.  First part: for every key `k` distinct from the declared
subconfig names, a file-based config with top-level key `k` makes `build`
raise the unknown-subconfig `ValueError` of `__assure_no_additional_keys`.
Second part: for every command-line token `subconfig.argument=value` whose
argument name is not in `dir` of the target subconfig — not a declared
argument, not one of `BaseConfig`'s class attributes (the reserved names),
and not an inherited dunder attribute — `build` raises the
unknown-argument `ValueError` of `__override_with_cmdline_args`.  In both
cases build propagates the exception and returns no configuration.
(An undeclared name that *is* in `dir(subcfg)`, such as `__init__`, skips
this check and instead raises `KeyError` from `arg_dict[...]`; see
`dunder_argument_token_raises_keyerror` below.) -/
theorem unknown_key_rejection :
    (∀ k : String, (k == "model") = false → (k == "training") = false →
      MainCfg.build exampleMain
        ⟨["config=badcfg.json"], [("badcfg.json", PyVal.dict [(k, PyVal.dict [])])],
          todayStr, noAlloc⟩ true = .error .unknownSubconfig) ∧
    (∀ tok nm aname val : String,
      strContains tok "save_dir" = false →
      strContains tok "experiment_name" = false →
      strContains tok "config=" = false →
      ("--h" == tok) = false →
      ("--help" == tok) = false →
      splitOnce tok "=" = some (nm, val) →
      (nm == "config") = false →
      strContains nm "." = true →
      pySplit nm "." = ["training", aname] →
      (aname == "dataset_to_use") = false →
      (aname == "use_mlflow_logger") = false →
      (aname == "lr") = false →
      (aname == "locked") = false →
      (aname == "arg_dict") = false →
      (aname == "help_dict") = false →
      (aname == "frozen") = false →
      (aname == "add_argument") = false →
      (aname == "to_dict") = false →
      (aname == "reserved_attributes") = false →
      (BaseConfig.dunderAttributes.contains aname) = false →
      MainCfg.build exampleMain ⟨[tok], [], todayStr, noAlloc⟩ true =
        .error .unknownArgumentCmd) := by
  constructor
  · intro k h1 h2
    have r1 : ratLe (mkRat 1 1000000000) (mkRat 1 1000) = true := by decide
    have r2 : ratLe (mkRat 1 1000) (mkRat 1 100) = true := by decide
    simp only [MainCfg.build, MainCfg.set_defaults, MainCfg.setSubcfg, MainCfg.setattrVal,
          overrideDefaults, determineConfigPath, loadJson, loadSubconfigsFromFilepath,
          loadEntryVal, assureNoAdditionalKeys, overrideWithFilebasedArgs,
          overrideIndividualSubconfig, overrideWithCmdlineArgs, validateArg,
          loadCheckpointConfigIfIndicated, freezeConfigs, MainCfg.to_dict,
          displayHelp, setSaveDirExpName, ssdeStep, removeFirst, strContains, listSub,
          afterLast, afterLastFuel, splitOnce, splitOnceList, pySplit, splitFuel,
          sortStrings, insertSorted, strLt, strListLt, charLt, MainCfg.reservedAttributes,
          exampleMain, ModelConfigInit, TrainingConfigInit, BaseConfig.empty,
          BaseConfig.add_argument, BaseConfig.setattr, BaseConfig.setattrRaw,
          BaseConfig.hasattr, BaseConfig.getattr, BaseConfig.reservedAttributes,
          updList, isinstance, isSentinel, PyVal.isNoneV, PyVal.isStrNone, PyVal.truthy,
          todayStr, noAlloc, Bind.bind, Except.bind, h1, h2, List.foldlM, List.foldl,
          List.map, List.all, List.elem, List.contains, List.lookup, List.filter]
    simp [h1, h2, r1, r2, ModelConfigInit, TrainingConfigInit, BaseConfig.empty,
          BaseConfig.add_argument, BaseConfig.setattr, BaseConfig.setattrRaw,
          BaseConfig.hasattr, BaseConfig.getattr, BaseConfig.reservedAttributes,
          updList, isinstance, isSentinel, PyVal.isNoneV, PyVal.isStrNone, PyVal.truthy,
          modelTypeValidation, lrValidation, List.lookup, Bind.bind, Except.bind,
          MainCfg.setSubcfg, MainCfg.setattrVal, validateArg, coerce, pyStrOf,
          strContains, listSub, charLt, strLt, strListLt, sortStrings, insertSorted,
          Pure.pure, Except.pure, splitOnce, splitOnceList, afterLast, afterLastFuel,
          pySplit, splitFuel, osPathJoin, rsplitDir, removeFirst, displayHelp, loadJson,
          loadEntryVal, loadSubconfigsFromFilepath, assureNoAdditionalKeys,
          overrideWithFilebasedArgs, overrideIndividualSubconfig, overrideWithCmdlineArgs,
          loadCheckpointConfigIfIndicated, freezeConfigs, MainCfg.to_dict, strEndsWith,
          List.isPrefixOf, List.isSuffixOf, List.foldlM, List.foldl, List.map, List.all,
          List.elem, List.contains, List.filter, parsePyFloat, parsePyInt, digitsVal, pow10]
  · intro tok nm aname val hsd hen hcfg hh1 hh2 hsplit hnm1 hnmdot hnmsplit
      ha1 ha2 ha3 ha4 ha5 ha6 ha7 ha8 ha9 ha10 hdund
    have hdef : lrValidation (.float (mkRat 1 1000)) = true := by decide
    have hmem : aname ∉ BaseConfig.dunderAttributes := by simpa using hdund
    have hd : ∀ s, s ∈ BaseConfig.dunderAttributes → (aname == s) = false := by
      intro s hs
      refine beq_eq_false_iff_ne.mpr (fun h => ?_)
      subst h
      exact hmem hs
    simp only [MainCfg.build, MainCfg.set_defaults, MainCfg.setSubcfg, MainCfg.setattrVal,
          overrideDefaults, determineConfigPath, loadJson, loadSubconfigsFromFilepath,
          loadEntryVal, assureNoAdditionalKeys, overrideWithFilebasedArgs,
          overrideIndividualSubconfig, overrideWithCmdlineArgs, validateArg,
          loadCheckpointConfigIfIndicated, freezeConfigs, MainCfg.to_dict,
          displayHelp, setSaveDirExpName, ssdeStep, removeFirst,
          sortStrings, insertSorted, strLt, strListLt, charLt, MainCfg.reservedAttributes,
          exampleMain, ModelConfigInit, TrainingConfigInit, BaseConfig.empty,
          BaseConfig.add_argument, BaseConfig.setattr, BaseConfig.setattrRaw,
          BaseConfig.hasattr, BaseConfig.getattr, BaseConfig.reservedAttributes,
          updList, isinstance, isSentinel, PyVal.isNoneV, PyVal.isStrNone, PyVal.truthy,
          todayStr, noAlloc, Bind.bind, Except.bind, List.foldlM, List.foldl,
          List.map, List.all, List.elem, List.contains, List.lookup, List.filter,
          splitOnceList, List.isPrefixOf, List.drop,
          hsd, hen, hcfg, hh1, hh2, hsplit, hnm1, hnmdot, hnmsplit, hdef,
          ha1, ha2, ha3, ha4, ha5, ha6, ha7, ha8, ha9, ha10, hdund, hd]
    simp [hsd, hen, hcfg, hh1, hh2, hsplit, hnm1, hnmdot, hnmsplit, hdef,
          ha1, ha2, ha3, ha4, ha5, ha6, ha7, ha8, ha9, ha10, hdund, hd,
          BaseConfig.dunderAttributes, ModelConfigInit, TrainingConfigInit, BaseConfig.empty,
          BaseConfig.add_argument, BaseConfig.setattr, BaseConfig.setattrRaw,
          BaseConfig.hasattr, BaseConfig.getattr, BaseConfig.reservedAttributes,
          updList, isinstance, isSentinel, PyVal.isNoneV, PyVal.isStrNone, PyVal.truthy,
          modelTypeValidation, List.lookup, Bind.bind, Except.bind,
          MainCfg.setSubcfg, MainCfg.setattrVal, validateArg, pyStrOf,
          charLt, strLt, strListLt, sortStrings, insertSorted,
          Pure.pure, Except.pure, afterLast, afterLastFuel,
          splitFuel, osPathJoin, rsplitDir, removeFirst, displayHelp, loadJson,
          loadEntryVal, loadSubconfigsFromFilepath, assureNoAdditionalKeys,
          overrideWithFilebasedArgs, overrideIndividualSubconfig, overrideWithCmdlineArgs,
          loadCheckpointConfigIfIndicated, freezeConfigs, MainCfg.to_dict,
          List.foldlM, List.foldl, List.map, List.all,
          List.elem, List.contains, List.filter, buildGet, splitOnceList, List.drop]

/-- Claim C6 (witness): the theorem instantiated at the undeclared
subconfig key `optimizer` and the undeclared argument token
`training.batchsize=4`. -/
theorem unknown_key_rejection_witness :
    MainCfg.build exampleMain
        ⟨["config=badcfg.json"], [("badcfg.json", PyVal.dict [("optimizer", PyVal.dict [])])],
          todayStr, noAlloc⟩ true = .error .unknownSubconfig ∧
    MainCfg.build exampleMain ⟨["training.batchsize=4"], [], todayStr, noAlloc⟩ true =
      .error .unknownArgumentCmd :=
  ⟨unknown_key_rejection.1 "optimizer" (by decide) (by decide),
   unknown_key_rejection.2 "training.batchsize=4" "training.batchsize" "batchsize" "4"
     rfl rfl rfl (by decide) (by decide) rfl (by decide) rfl rfl
     (by decide) (by decide) (by decide) (by decide) (by decide)
     (by decide) (by decide) (by decide) (by decide) (by decide) (by decide)⟩

/-- Boundary of the `dir()` membership test in
`__override_with_cmdline_args`: an undeclared argument name that *is* an
inherited attribute of the subconfig (here `__init__`, which `dir(subcfg)`
always contains) passes the `arg_name not in dir(subcfg)` check, so
`__validate_arg` is reached and raises `KeyError` from
`subcfg.arg_dict[arg_name]` instead of the unknown-argument
`ValueError`. -/
theorem dunder_argument_token_raises_keyerror :
    MainCfg.build exampleMain ⟨["training.__init__=1"], [], todayStr, noAlloc⟩ true =
      .error .keyError := rfl

set_option maxHeartbeats 4000000 in
set_option maxRecDepth 100000 in
/-- Claim C1: precedence of command-line over file-based over code
defaults, shown for the `training.lr` argument of the example schema with
arbitrary values: the file assigns any value `fv` that coerces to a valid
float `qf` disagreeing with the code default `1e-3`, the command line
assigns any token `subconfig.argument=value` whose value string parses to
a valid third float `q`; after `build`, the resolved value is exactly the
command-line value `q`. -/
theorem precedence_cmdline_over_file_over_default
    (fv : PyVal) (qf : Rat) (tok cv : String) (q : Rat)
    (hcoe : coerce PyType.float fv = .ok (.float qf))
    (hvf : lrValidation (.float qf) = true)
    (hfd : qf ≠ mkRat 1 1000)
    (hsd : strContains tok "save_dir" = false)
    (hen : strContains tok "experiment_name" = false)
    (hcfg : strContains tok "config=" = false)
    (hh1 : ("--h" == tok) = false)
    (hh2 : ("--help" == tok) = false)
    (hsplit : splitOnce tok "=" = some ("training.lr", cv))
    (hcv : coerce PyType.float (.str cv) = .ok (.float q))
    (hvq : lrValidation (.float q) = true)
    (hne1 : q ≠ qf) (hne2 : q ≠ mkRat 1 1000) :
    buildGet (MainCfg.build exampleMain
      ⟨["config=cfg.json", tok], [("cfg.json", PyVal.dict [("training", PyVal.dict [("lr", fv)])])],
        todayStr, noAlloc⟩ true) "training" "lr" = some (.float q) := by
  have hdef : lrValidation (.float (mkRat 1 1000)) = true := by decide
  have hc1 : splitOnce "config=cfg.json" "=" = some ("config", "cfg.json") := rfl
  have hh1p : ¬ ("--h" = tok) := by simpa using hh1
  have hh2p : ¬ ("--help" = tok) := by simpa using hh2
  have f1 : strContains "config=cfg.json" "save_dir" = false := rfl
  have f2 : strContains "config=cfg.json" "experiment_name" = false := rfl
  have f3 : strContains "config=cfg.json" "config=" = true := rfl
  have f4 : strContains "training.lr" "." = true := rfl
  have f5 : pySplit "training.lr" "." = ["training", "lr"] := rfl
  simp only [MainCfg.build, MainCfg.set_defaults, MainCfg.setSubcfg, MainCfg.setattrVal,
        overrideDefaults, determineConfigPath, loadJson, loadSubconfigsFromFilepath,
        loadEntryVal, assureNoAdditionalKeys, overrideWithFilebasedArgs,
        overrideIndividualSubconfig, overrideWithCmdlineArgs, validateArg,
        loadCheckpointConfigIfIndicated, freezeConfigs, MainCfg.to_dict,
        displayHelp, setSaveDirExpName, ssdeStep, removeFirst,
        sortStrings, insertSorted, strLt, strListLt, charLt, MainCfg.reservedAttributes,
        exampleMain, ModelConfigInit, TrainingConfigInit, BaseConfig.empty,
        BaseConfig.add_argument, BaseConfig.setattr, BaseConfig.setattrRaw,
        BaseConfig.hasattr, BaseConfig.getattr, BaseConfig.reservedAttributes,
        updList, isinstance, isSentinel, PyVal.isNoneV, PyVal.isStrNone, PyVal.truthy,
        todayStr, noAlloc, Bind.bind, Except.bind, List.foldlM, List.foldl,
        List.map, List.all, List.elem, List.contains, List.lookup, List.filter,
        splitOnceList, List.isPrefixOf, List.drop,
        hsd, hen, hcfg, hh1, hh2, hsplit, hcoe, hcv, hvf, hvq, hdef, hc1,
        f1, f2, f3, f4, f5]
  simp [hsd, hen, hcfg, hh1, hh2, hh1p, hh2p, hsplit, hcoe, hcv, hvf, hvq, hdef, hc1,
        f1, f2, f3, f4, f5,
        ModelConfigInit, TrainingConfigInit, BaseConfig.empty,
        BaseConfig.add_argument, BaseConfig.setattr, BaseConfig.setattrRaw,
        BaseConfig.hasattr, BaseConfig.getattr, BaseConfig.reservedAttributes,
        updList, isinstance, isSentinel, PyVal.isNoneV, PyVal.isStrNone, PyVal.truthy,
        modelTypeValidation, List.lookup, Bind.bind, Except.bind,
        MainCfg.setSubcfg, MainCfg.setattrVal, validateArg, pyStrOf,
        charLt, strLt, strListLt, sortStrings, insertSorted,
        Pure.pure, Except.pure, afterLast, afterLastFuel,
        splitFuel, osPathJoin, rsplitDir, removeFirst, displayHelp, loadJson,
        loadEntryVal, loadSubconfigsFromFilepath, assureNoAdditionalKeys,
        overrideWithFilebasedArgs, overrideIndividualSubconfig, overrideWithCmdlineArgs,
        loadCheckpointConfigIfIndicated, freezeConfigs, MainCfg.to_dict,
        List.foldlM, List.foldl, List.map, List.all,
        List.elem, List.contains, List.filter, buildGet, splitOnceList, List.drop]

/-- Claim C1 (witness): the spec's concrete scenario — code default
`1e-3`, file value `1e-4`, command-line token `training.lr=1e-8`; the
resolved value is the command-line `1e-8`. -/
theorem precedence_cmdline_over_file_over_default_witness :
    buildGet (MainCfg.build exampleMain
      ⟨["config=cfg.json", "training.lr=1e-8"],
        [("cfg.json", PyVal.dict [("training", PyVal.dict [("lr", PyVal.float (mkRat 1 10000))])])],
        todayStr, noAlloc⟩ true) "training" "lr" = some (.float (mkRat 1 100000000)) :=
  precedence_cmdline_over_file_over_default
    (.float (mkRat 1 10000)) (mkRat 1 10000) "training.lr=1e-8" "1e-8" (mkRat 1 100000000)
    rfl (by decide) (by decide) rfl rfl rfl (by decide) (by decide) rfl
    (by simp [coerce, show parsePyFloat "1e-8" = some (mkRat 1 100000000) from by decide])
    (by decide) (by decide) (by decide)

end QuickConfig
